import Mathlib

/-!
Verification development for the SAP fit-gap analyzer orchestration core.

The definitions below are a shallow embedding of the Python sources:
- `src/app/models/base_models.py` and `src/app/models/api_models.py`
  (enums and pydantic data models),
- `src/app/flows/sap_analysis_flow.py` (the `SAPAnalysisFlow` pipeline,
  its `SAPAnalysisState`, and the result-aggregation helpers),
- `src/app/services/analysis_service.py` (the in-memory status store,
  `start_analysis`, `get_analysis_status`, and the Celery task
  `process_analysis_task`),
- `src/app/api/routes.py` (the status / result / cancel endpoints).

Modelling conventions:
- Timestamps are abstract `Nat` ticks (`datetime.utcnow()` becomes a `now`
  parameter; `isoformat`/`fromisoformat` round-trip losslessly on the values
  the code ever stores, so both are the identity here).
- Progress percentages are `Nat`: every value the code ever assigns is a
  whole number (0, 5, 20, 25, ...), so no floating-point behaviour is
  involved.
- Python exceptions are `Except String`; `try/except` blocks become matches
  on the `Except` value, and the mutated-state-at-raise-time is threaded
  explicitly because the `except` handlers mutate `self.state` before
  re-raising.
- Python dictionaries with optional keys (the status-store entries) are
  records of `Option` fields: `none` means the key is absent, `d[k]`
  becomes `dictIndex` (raising `KeyError` on absence) and `d.get(k, v)`
  becomes `Option.getD`.
-/

namespace FitGap

/-- Enum `AnalysisStatus` (base_models.py lines 15–20). -/
inductive AnalysisStatus where
  | pending
  | processing
  | completed
  | error
deriving DecidableEq, Repr

/-- The `.value` string of each `AnalysisStatus` member. -/
def AnalysisStatus.val : AnalysisStatus → String
  | .pending => "pending"
  | .processing => "processing"
  | .completed => "completed"
  | .error => "error"

/-- Enum `SAPModule` (base_models.py lines 32–41). -/
inductive SAPModule where
  | FI | FI_AA | CO | MM | SD | PP | HR | QM
deriving DecidableEq, Repr

/-- The `.value` string of each `SAPModule` member. -/
def SAPModule.val : SAPModule → String
  | .FI => "FI"
  | .FI_AA => "FI-AA"
  | .CO => "CO"
  | .MM => "MM"
  | .SD => "SD"
  | .PP => "PP"
  | .HR => "HR"
  | .QM => "QM"

/-- Rendering of a `SAPModule` member by a Python f-string, as used in
`process_analysis_task` (`f"Análise concluída para módulo {request.sap_module}"`,
analysis_service.py line 222). For a `(str, Enum)` member this renders the
member (class-qualified on current Pythons); the exact text is immaterial to
the claims, which only need that it is a function of the module alone. -/
def SAPModule.fstr (m : SAPModule) : String :=
  "SAPModule." ++ m.val

/-- Enum `AnalysisType` (base_models.py lines 44–49). -/
inductive AnalysisType where
  | gap_analysis | process_review | requirement_validation | full_analysis
deriving DecidableEq, Repr

/-- The `.value` string of each `AnalysisType` member. -/
def AnalysisType.val : AnalysisType → String
  | .gap_analysis => "gap_analysis"
  | .process_review => "process_review"
  | .requirement_validation => "requirement_validation"
  | .full_analysis => "full_analysis"

/-- Model of `FileUploadInfo` (api_models.py lines 7–13). -/
structure FileUploadInfo where
  filename : String
  file_size : Nat
  content_type : String
  file_path : String
  uploaded_at : Nat
deriving DecidableEq, Repr

/-- Model of `AnalysisRequest` (api_models.py lines 16–23). Note the optional
requirements reference is the field `requirements_file_info`; no field named
`requirements_file_id` is declared. -/
structure AnalysisRequest where
  presentation_id : String
  requirements_file_info : Option FileUploadInfo := none
  meeting_transcript_id : Option String := none
  sap_module : SAPModule
  analysis_type : AnalysisType := .full_analysis
  additional_context : Option String := none
deriving DecidableEq, Repr

/-- The declared pydantic field names of `AnalysisRequest`
(api_models.py lines 16–23), in declaration order. Attribute reads of any
other name on an `AnalysisRequest` instance raise `AttributeError`. -/
def analysisRequestFields : List String :=
  ["presentation_id", "requirements_file_info", "meeting_transcript_id",
   "sap_module", "analysis_type", "additional_context"]

/-- Model of `ProcessAnalysis` (api_models.py lines 42–51). -/
structure ProcessAnalysis where
  process_name : String
  process_description : String
  page_number : Nat
  process_flow : String
  key_steps : List String
  business_rules : List String
  integration_points : List String
  potential_gaps : List String
deriving DecidableEq, Repr

/-- Model of `RequirementAnalysis` (api_models.py lines 26–39); `business_impact`
kept as its `.value` string. -/
structure RequirementAnalysis where
  requirement_id : String
  requirement_description : String
  core_process_analysis : String
  core_process_page_numbers : List Nat
  core_process_explanation : String
  is_gap : Bool
  gap_reason : Option String := none
  gap_justification : Option String := none
  transcript_reference : Option String := none
  transcript_page_numbers : List Nat := []
  business_impact : String
  final_conclusion : String
deriving DecidableEq, Repr

/-- Model of `AnalysisResult` (api_models.py lines 54–66). -/
structure AnalysisResult where
  analysis_id : String
  presentation_analysis : List ProcessAnalysis
  requirements_analysis : List RequirementAnalysis
  overall_summary : String
  total_requirements : Nat
  gaps_identified : Nat
  high_impact_gaps : Nat
  recommendations : List String
  next_steps : List String
  created_at : Nat
  processing_time_seconds : Nat
deriving DecidableEq, Repr

/-- One entry of the `tasks_outputs` list built by `_extract_crew_output`
(sap_analysis_flow.py lines 420–437). -/
structure TaskOut where
  description : String
  output : String
  agent : String
deriving DecidableEq, Repr

/-- The dictionary produced by `_extract_crew_output`
(sap_analysis_flow.py lines 395–452) from a crew kickoff result. Its
`try/except` guarantees the four keys below are always present, so they are
plain fields here. -/
structure CrewOutput where
  raw_output : String
  tasks_outputs : List TaskOut := []
  tokens_used : Nat := 0
  execution_time : Nat := 0
deriving DecidableEq, Repr

/-- Model of `SAPAnalysisState` (sap_analysis_flow.py lines 32–59). Note the optional
requirements reference is declared as `requirements_file_info`; no field
named `requirements_file_id` exists on the model. -/
structure SAPAnalysisState where
  analysis_id : String
  presentation_id : String
  requirements_file_info : Option FileUploadInfo := none
  meeting_transcript_id : Option String := none
  sap_module : String
  analysis_type : String
  additional_context : Option String := none
  process_analysis_result : Option CrewOutput := none
  requirements_analysis_result : Option CrewOutput := none
  gap_analysis_result : Option CrewOutput := none
  meeting_analysis_result : Option CrewOutput := none
  final_result : Option AnalysisResult := none
  status : AnalysisStatus := .pending
  progress_percentage : Nat := 0
  current_stage : Option String := none
  error_message : Option String := none
  created_at : Nat
deriving DecidableEq, Repr

/-- The declared pydantic field names of `SAPAnalysisState`
(sap_analysis_flow.py lines 32–56), in declaration order. pydantic models
reject attribute reads and writes of any other name. -/
def sapAnalysisStateFields : List String :=
  ["analysis_id", "presentation_id", "requirements_file_info",
   "meeting_transcript_id", "sap_module", "analysis_type",
   "additional_context", "process_analysis_result",
   "requirements_analysis_result", "gap_analysis_result",
   "meeting_analysis_result", "final_result", "status",
   "progress_percentage", "current_stage", "error_message", "created_at"]

/-- A fresh flow state for analysing the stage chain: every optional field
at its declared default (`status = PENDING`, `progress = 0.0`, result
slots `None`), `created_at` the creation tick, and the required string
fields empty until the start method copies the request in. (Materialising
the pydantic model with no arguments in fact raises — see
`sapAnalysisFlowCtor` — so this is the hypothetical post-construction
state from which the stage methods are analysed; the faults those methods
themselves raise are independent of it.) -/
def initState (created : Nat) : SAPAnalysisState :=
  { analysis_id := "", presentation_id := "", sap_module := "",
    analysis_type := "", created_at := created }

/-- Python truthiness test `not x` for an optional-string value:
`None` and the empty string are falsy. -/
def pyFalsyOptStr : Option String → Bool
  | none => true
  | some s => s = ""

/-- The `AttributeError` message for the undeclared read
`request.requirements_file_id` (paraphrasing pydantic's wording). -/
def attrErrAnalysisRequest : String :=
  "AttributeError: AnalysisRequest object has no attribute requirements_file_id"

/-- The `AttributeError` message for the undeclared read
`self.state.requirements_file_id` (paraphrasing pydantic's wording). -/
def attrErrSAPState : String :=
  "AttributeError: SAPAnalysisState object has no attribute requirements_file_id"

/-- Models the read `request.requirements_file_id` at sap_analysis_flow.py
line 95. `AnalysisRequest` declares no field of that name (see
`analysisRequestFields`), so pydantic raises `AttributeError`; the message
paraphrases the Python one. -/
def readRequestRequirementsFileId (_req : AnalysisRequest) :
    Except String (Option String) :=
  .error attrErrAnalysisRequest

/-- Models the assignment target `self.state.requirements_file_id` at
sap_analysis_flow.py line 95. `SAPAnalysisState` declares no field of that
name (see `sapAnalysisStateFields`), so even if the right-hand side
evaluated, pydantic would reject the write with `ValueError`. -/
def writeStateRequirementsFileId (_st : SAPAnalysisState)
    (_v : Option String) : Except String SAPAnalysisState :=
  .error "ValueError: SAPAnalysisState object has no field requirements_file_id"

/-- Models the read `self.state.requirements_file_id` at
sap_analysis_flow.py line 178 (the skip test of the requirements stage).
The field is undeclared on `SAPAnalysisState` (see
`sapAnalysisStateFields`), so the read raises `AttributeError`. -/
def readStateRequirementsFileId (_st : SAPAnalysisState) :
    Except String (Option String) :=
  .error attrErrSAPState

/-- Model of `initialize_analysis` (sap_analysis_flow.py lines 77–117). Mirrors the
method body statement by statement: the generated id and the
`presentation_id` are copied into the state (lines 93–94); the statement
`self.state.requirements_file_id = request.requirements_file_id` (line 95)
first reads an undeclared attribute of the request, which raises, and the
`except` handler (lines 113–117) then sets `status = ERROR`, records
`error_message = "Erro na inicialização: " ++ cause`, and re-raises the
original exception. The remaining assignments (lines 96–102) are
transcribed on the branches Python would take were the attribute present. -/
def init_analysis (newId : String) (req : AnalysisRequest)
    (st : SAPAnalysisState) : SAPAnalysisState × Except String String :=
  let st1 : SAPAnalysisState :=
    { st with analysis_id := newId, presentation_id := req.presentation_id }
  match readRequestRequirementsFileId req with
  | .error e =>
      ({ st1 with status := .error,
                  error_message := some ("Erro na inicialização: " ++ e) },
       .error e)
  | .ok v =>
      match writeStateRequirementsFileId st1 v with
      | .error e =>
          ({ st1 with status := .error,
                      error_message := some ("Erro na inicialização: " ++ e) },
           .error e)
      | .ok st2 =>
          ({ st2 with
              meeting_transcript_id := req.meeting_transcript_id,
              sap_module := req.sap_module.val,
              analysis_type := req.analysis_type.val,
              additional_context := req.additional_context,
              status := .processing,
              current_stage := some "Inicializando análise",
              progress_percentage := 5 },
           .ok "Analysis initialized successfully")

/-- Model of `analyze_business_processes` (sap_analysis_flow.py lines 119–167).
`crew` is the outcome of `self.process_crew.crew().kickoff(inputs)` followed
by `_extract_crew_output` (which never raises): `.ok` a `CrewOutput` dict,
or `.error` when the kickoff raised. -/
def analyze_business_processes (crew : Except String CrewOutput)
    (st : SAPAnalysisState) : SAPAnalysisState × Except String String :=
  let st1 := { st with current_stage := some "Analisando processos de negócio",
                       progress_percentage := 20 }
  match crew with
  | .ok out =>
      ({ st1 with process_analysis_result := some out,
                  progress_percentage := 35 },
       .ok "Business processes analyzed successfully")
  | .error e =>
      ({ st1 with status := .error,
                  error_message := some ("Erro na análise de processos: " ++ e) },
       .error e)

/-- Model of `analyze_requirements` (sap_analysis_flow.py lines 169–222). The skip
test `if not self.state.requirements_file_id` (line 178) reads an attribute
`SAPAnalysisState` does not declare, so the read raises and the `except`
handler (lines 214–222) records the error and re-raises. The skip branch
and the crew call (lines 179–212) are transcribed on the branch Python
would take were the attribute present. -/
def analyze_requirements (crew : Except String CrewOutput)
    (st : SAPAnalysisState) : SAPAnalysisState × Except String String :=
  match readStateRequirementsFileId st with
  | .error e =>
      ({ st with status := .error,
                 error_message := some ("Erro na análise de requisitos: " ++ e) },
       .error e)
  | .ok fid =>
      if pyFalsyOptStr fid then
        (st, .ok "No requirements to analyze")
      else
        let st1 := { st with
                      current_stage := some "Analisando requisitos de negócio",
                      progress_percentage := 50 }
        match crew with
        | .ok out =>
            ({ st1 with requirements_analysis_result := some out,
                        progress_percentage := 60 },
             .ok "Requirements analyzed successfully")
        | .error e =>
            ({ st1 with status := .error,
                        error_message :=
                          some ("Erro na análise de requisitos: " ++ e) },
             .error e)

/-- Model of `perform_gap_analysis` (sap_analysis_flow.py lines 224–272). -/
def perform_gap_analysis (crew : Except String CrewOutput)
    (st : SAPAnalysisState) : SAPAnalysisState × Except String String :=
  let st1 := { st with current_stage := some "Realizando análise de gaps",
                       progress_percentage := 70 }
  match crew with
  | .ok out =>
      ({ st1 with gap_analysis_result := some out,
                  progress_percentage := 80 },
       .ok "Gap analysis completed successfully")
  | .error e =>
      ({ st1 with status := .error,
                  error_message := some ("Erro na análise de gaps: " ++ e) },
       .error e)

/-- Model of `analyze_meeting_transcript` (sap_analysis_flow.py lines 274–327). The
skip test (line 283) reads `self.state.meeting_transcript_id`, which IS a
declared field, so the skip works: `None` or an empty id makes the method a
no-op returning "No meeting transcript to analyze". -/
def analyze_meeting_transcript (crew : Except String CrewOutput)
    (st : SAPAnalysisState) : SAPAnalysisState × Except String String :=
  if pyFalsyOptStr st.meeting_transcript_id then
    (st, .ok "No meeting transcript to analyze")
  else
    let st1 := { st with
                  current_stage := some "Analisando transcrição da reunião",
                  progress_percentage := 85 }
    match crew with
    | .ok out =>
        ({ st1 with meeting_analysis_result := some out,
                    progress_percentage := 90 },
         .ok "Meeting transcript analyzed successfully")
    | .error e =>
        ({ st1 with status := .error,
                    error_message := some ("Erro na análise da reunião: " ++ e) },
         .error e)

/-- Non-overlapping substring count over character lists, the semantics of
Python `str.count` for the non-empty literal patterns used by the counting
helpers. Structural recursion on a fuel argument: each step either drops
one leading character or, on a match, additionally skips the rest of the
matched pattern, so fuel equal to the text length always suffices. -/
def countOccAux (pat : List Char) : Nat → List Char → Nat
  | 0, _ => 0
  | _, [] => 0
  | fuel + 1, c :: rest =>
      if pat.isPrefixOf (c :: rest) then
        countOccAux pat fuel (List.drop (pat.length - 1) rest) + 1
      else
        countOccAux pat fuel rest

/-- Python `s.count(pat)` for the non-empty patterns used in the flow. -/
def pyCount (s pat : String) : Nat :=
  countOccAux pat.data s.data.length s.data

/-- Python `pat in s` substring membership, via the same matching engine. -/
def pyContains (s pat : String) : Bool :=
  pyCount s pat ≠ 0

/-- Python `s.lower()`, as the character-wise map `Char.toLower` (written
over the character list so it evaluates in the kernel). `Char.toLower`
lowercases ASCII letters only; the keyword literals scanned for are already
lower-case, and these helpers are shadowed dead code (see below), so the
difference on accented upper-case letters in a haystack is never
observable. -/
def pyLower (s : String) : String :=
  ⟨s.data.map Char.toLower⟩

/-- The FIRST definition of `_extract_presentation_analysis`
(sap_analysis_flow.py lines 512–538). With no `process_analysis_result` it
returns `[]`; otherwise it builds `ProcessAnalysis(slide_number=..., ...)`
with a keyword set that does not match the `ProcessAnalysis` model of
api_models.py, so pydantic raises `ValidationError` and the local `except`
(line 536) returns `[]` — hence `[]` on every input. Shadowed by the later
definition at lines 698–701, so never callable at run time. -/
def extract_presentation_analysis_shadowed (st : SAPAnalysisState) :
    List ProcessAnalysis :=
  match st.process_analysis_result with
  | none => []
  | some _ => []

/-- The FIRST definition of `_extract_requirements_analysis`
(sap_analysis_flow.py lines 540–566): same shape as
`extract_presentation_analysis_shadowed` — the constructed
`RequirementAnalysis(...)` keyword set does not match the model, the local
`except` returns `[]`. Shadowed by lines 703–706. -/
def extract_requirements_analysis_shadowed (st : SAPAnalysisState) :
    List RequirementAnalysis :=
  match st.requirements_analysis_result with
  | none => []
  | some _ => []

/-- The FIRST definition of `_extract_overall_summary`
(sap_analysis_flow.py lines 568–594). Shadowed by lines 708–712. -/
def extract_overall_summary_shadowed (st : SAPAnalysisState)
    (final_report : CrewOutput) : String :=
  let summary := final_report.raw_output
  if summary ≠ "" then
    summary.take 1000
  else
    let summary_parts : List String :=
      (if st.process_analysis_result.isSome then
        ["Análise de processos concluída."] else []) ++
      (if st.requirements_analysis_result.isSome then
        ["Análise de requisitos realizada."] else []) ++
      (if st.gap_analysis_result.isSome then
        ["Gaps identificados e priorizados."] else []) ++
      (if st.meeting_analysis_result.isSome then
        ["Insights extraídos da reunião."] else [])
    if summary_parts = [] then "Análise SAP concluída com sucesso."
    else String.intercalate " " summary_parts

/-- The FIRST definition of `_count_requirements`
(sap_analysis_flow.py lines 596–611). Shadowed by lines 714–716. -/
def count_requirements_shadowed (st : SAPAnalysisState) : Nat :=
  match st.requirements_analysis_result with
  | none => 0
  | some r =>
      let requirements_output := r.raw_output
      let count := pyCount (pyLower requirements_output) "requisito"
      if requirements_output = "" then 0 else max count 1

/-- The FIRST definition of `_count_gaps` (sap_analysis_flow.py lines
613–629): sums keyword occurrences, clamped below by 1 on non-empty
output. Shadowed by lines 718–720. -/
def count_gaps_shadowed (st : SAPAnalysisState) : Nat :=
  match st.gap_analysis_result with
  | none => 0
  | some r =>
      let gap_output := r.raw_output
      let gap_keywords : List String := ["gap", "lacuna", "diferença", "ausência"]
      let count := (gap_keywords.map (fun kw => pyCount (pyLower gap_output) kw)).sum
      if gap_output = "" then 0 else max count 1

/-- The FIRST definition of `_count_high_impact_gaps`
(sap_analysis_flow.py lines 631–647): sums high-impact keyword occurrences
with no clamp and no cap against `_count_gaps`. Shadowed by lines 722–724. -/
def count_high_impact_gaps_shadowed (st : SAPAnalysisState) : Nat :=
  match st.gap_analysis_result with
  | none => 0
  | some r =>
      let gap_output := r.raw_output
      let high_impact_keywords : List String :=
        ["crítico", "alto impacto", "prioritário", "urgente"]
      (high_impact_keywords.map (fun kw => pyCount (pyLower gap_output) kw)).sum

/-- The FIRST definition of `_extract_recommendations`
(sap_analysis_flow.py lines 649–672). Shadowed by lines 726–728. -/
def extract_recommendations_shadowed (st : SAPAnalysisState)
    (final_report : CrewOutput) : List String :=
  let report_output := final_report.raw_output
  let recommendations : List String :=
    (if pyContains (pyLower report_output) "recomendação" then
      ["Implementar melhorias identificadas na análise"] else []) ++
    (if st.gap_analysis_result.isSome then
      ["Priorizar resolução dos gaps críticos"] else []) ++
    (if st.requirements_analysis_result.isSome then
      ["Revisar requisitos não atendidos"] else [])
  if recommendations = [] then ["Revisar resultado da análise"]
  else recommendations

/-- The FIRST definition of `_extract_next_steps`
(sap_analysis_flow.py lines 674–696). Shadowed by lines 730–732. -/
def extract_next_steps_shadowed (_st : SAPAnalysisState)
    (final_report : CrewOutput) : List String :=
  let report_output := final_report.raw_output
  let next_steps : List String :=
    if pyContains (pyLower report_output) "próximo" ∨
       pyContains (pyLower report_output) "next" then
      ["Revisar análise detalhada"]
    else []
  next_steps ++
    ["Planejar implementação das melhorias",
     "Validar soluções propostas com stakeholders",
     "Definir cronograma de implementação"]

/-- The LATER (effective) definition of `_extract_presentation_analysis`
(sap_analysis_flow.py lines 698–701). In a Python class body a second `def`
of the same name rebinds it, so THIS is the method the class carries; it
requires a `tasks_outputs` argument (untyped in Python, hence polymorphic
here) and returns `[]`. -/
def extract_presentation_analysis {α : Type} (_tasks_outputs : α) :
    List ProcessAnalysis :=
  []

/-- The LATER (effective) definition of `_extract_requirements_analysis`
(sap_analysis_flow.py lines 703–706). -/
def extract_requirements_analysis {α : Type} (_tasks_outputs : α) :
    List RequirementAnalysis :=
  []

/-- Stand-in for Python `str(d)` on a crew-output dictionary. Only used on
a dead branch (see `extract_overall_summary`); its exact text is never
observed by any reachable computation. -/
def pyStrCrewDict (out : CrewOutput) : String :=
  "raw_output: " ++ out.raw_output

/-- The LATER (effective) definition of `_extract_overall_summary`
(sap_analysis_flow.py lines 708–712). Its argument at the only call site is
the `final_report` dict, which has no `raw` attribute and is truthy (its
four keys are always present), so the body is `str(crew_result)[:1000]`. -/
def extract_overall_summary (crew_result : CrewOutput) : String :=
  (pyStrCrewDict crew_result).take 1000

/-- The LATER (effective) definition of `_count_requirements`
(sap_analysis_flow.py lines 714–716). -/
def count_requirements {α : Type} (_tasks_outputs : α) : Nat :=
  0

/-- The LATER (effective) definition of `_count_gaps`
(sap_analysis_flow.py lines 718–720). -/
def count_gaps {α : Type} (_tasks_outputs : α) : Nat :=
  0

/-- The LATER (effective) definition of `_count_high_impact_gaps`
(sap_analysis_flow.py lines 722–724). -/
def count_high_impact_gaps {α : Type} (_tasks_outputs : α) : Nat :=
  0

/-- The LATER (effective) definition of `_extract_recommendations`
(sap_analysis_flow.py lines 726–728). -/
def extract_recommendations {α : Type} (_tasks_outputs : α) : List String :=
  ["Implementar melhorias identificadas na análise"]

/-- The LATER (effective) definition of `_extract_next_steps`
(sap_analysis_flow.py lines 730–732). -/
def extract_next_steps {α : Type} (_tasks_outputs : α) : List String :=
  ["Revisar análise detalhada", "Planejar implementação das melhorias"]

/-- A Python call of a one-required-positional-argument method with NO
argument: raises `TypeError` without invoking the body. `_f` records which
effective method the name is bound to at the call site. -/
def callNoArgs {α β : Type} (_f : α → β) (fname : String) : Except String β :=
  .error ("TypeError: " ++ fname ++
    " missing 1 required positional argument: tasks_outputs")

/-- The `except` fallback of `_create_structured_result`
(sap_analysis_flow.py lines 495–510): the minimal `AnalysisResult` built
when shaping the structured result failed. `final_report.get("raw_output",
"Análise concluída")` returns the `raw_output` field because the dict built
by `_extract_crew_output` always carries that key. -/
def fallbackResult (st : SAPAnalysisState) (now : Nat)
    (final_report : CrewOutput) : AnalysisResult :=
  { analysis_id := st.analysis_id,
    presentation_analysis := [],
    requirements_analysis := [],
    overall_summary := final_report.raw_output.take 1000,
    total_requirements := 0,
    gaps_identified := 0,
    high_impact_gaps := 0,
    recommendations := ["Revisar resultado da análise"],
    next_steps := ["Implementar melhorias identificadas"],
    created_at := now,
    processing_time_seconds := now - st.created_at }

/-- The `try` body of `_create_structured_result`
(sap_analysis_flow.py lines 464–493), statement by statement. The calls at
lines 466–472 pass NO argument, but the names resolve to the LATER
definitions, each requiring `tasks_outputs`; the first such call
(line 466) raises `TypeError`, short-circuiting the rest. The later
statements are transcribed as Python would run them: lines 475–479 pass one
argument (`final_report`), matching the effective signatures. -/
def createStructuredResultPrimary (st : SAPAnalysisState) (now : Nat)
    (final_report : CrewOutput) : Except String AnalysisResult := do
  let presentation_analysis ← callNoArgs (@extract_presentation_analysis Unit)
    "_extract_presentation_analysis"
  let requirements_analysis ← callNoArgs (@extract_requirements_analysis Unit)
    "_extract_requirements_analysis"
  let total_requirements ← callNoArgs (@count_requirements Unit)
    "_count_requirements"
  let gaps_identified ← callNoArgs (@count_gaps Unit) "_count_gaps"
  let high_impact_gaps ← callNoArgs (@count_high_impact_gaps Unit)
    "_count_high_impact_gaps"
  let recommendations := extract_recommendations final_report
  let next_steps := extract_next_steps final_report
  let overall_summary := extract_overall_summary final_report
  pure
    { analysis_id := st.analysis_id,
      presentation_analysis := presentation_analysis,
      requirements_analysis := requirements_analysis,
      overall_summary := overall_summary,
      total_requirements := total_requirements,
      gaps_identified := gaps_identified,
      high_impact_gaps := high_impact_gaps,
      recommendations := recommendations,
      next_steps := next_steps,
      created_at := now,
      processing_time_seconds := now - st.created_at }

/-- Model of `_create_structured_result` (sap_analysis_flow.py lines 454–510): run
the `try` body; on ANY failure return the fallback result. Total — the
method never raises. -/
def createStructuredResult (st : SAPAnalysisState) (now : Nat)
    (final_report : CrewOutput) : AnalysisResult :=
  match createStructuredResultPrimary st now final_report with
  | .ok r => r
  | .error _ => fallbackResult st now final_report

/-- Model of `generate_final_report` (sap_analysis_flow.py lines 329–393). On crew
success the structured result is built (never raising, see
`createStructuredResult`), the state is marked `COMPLETED` at progress 100.
The `firestore_service.save_analysis_result(...)` call at line 373 invokes
an `async def` without `await` from this synchronous method: the coroutine
object is created and discarded, so nothing is persisted and no fault can
arise from it. -/
def generate_final_report (crew : Except String CrewOutput) (now : Nat)
    (st : SAPAnalysisState) : SAPAnalysisState × Except String String :=
  let st1 := { st with current_stage := some "Gerando relatório final",
                       progress_percentage := 95 }
  match crew with
  | .error e =>
      ({ st1 with status := .error,
                  error_message := some ("Erro na geração do relatório: " ++ e) },
       .error e)
  | .ok final_report =>
      let result := createStructuredResult st1 now final_report
      ({ st1 with final_result := some result,
                  status := .completed,
                  progress_percentage := 100,
                  current_stage := some "Análise concluída" },
       .ok "Final report generated successfully")

/-- The six sequential methods of `SAPAnalysisFlow`, in chain order
(`@start` / `@listen` wiring, sap_analysis_flow.py lines 77–393). -/
inductive StageMethod where
  | initStep
  | processStep
  | requirementsStep
  | gapStep
  | meetingStep
  | reportStep
deriving DecidableEq, Repr

/-- The fixed stage-specific error-message header each method writes into
`error_message` before re-raising. -/
def errHeader : StageMethod → String
  | .initStep => "Erro na inicialização: "
  | .processStep => "Erro na análise de processos: "
  | .requirementsStep => "Erro na análise de requisitos: "
  | .gapStep => "Erro na análise de gaps: "
  | .meetingStep => "Erro na análise da reunião: "
  | .reportStep => "Erro na geração do relatório: "

/-- The chain order of the flow methods. -/
def methodOrder : List StageMethod :=
  [.initStep, .processStep, .requirementsStep, .gapStep, .meetingStep,
   .reportStep]

/-- The chain order cut after the given method. -/
def methodsThrough : StageMethod → List StageMethod
  | .initStep => [.initStep]
  | .processStep => [.initStep, .processStep]
  | .requirementsStep => [.initStep, .processStep, .requirementsStep]
  | .gapStep => [.initStep, .processStep, .requirementsStep, .gapStep]
  | .meetingStep =>
      [.initStep, .processStep, .requirementsStep, .gapStep, .meetingStep]
  | .reportStep => methodOrder

/-- The five specialised crews a run may call into. -/
inductive CrewKind where
  | process | requirements | gap | meeting | report
deriving DecidableEq, Repr

/-- Outcome of one flow run: the final state, the returned value or the
propagated exception, the methods that actually executed (in order), and
the method the exception escaped from, if any. -/
structure RunOutcome where
  state : SAPAnalysisState
  exc : Except String String
  executed : List StageMethod
  failedAt : Option StageMethod
deriving Repr

/-- One full run of `SAPAnalysisFlow`: the `@start` method followed by the
`@listen` chain (sap_analysis_flow.py lines 77–393), each method running
only after its predecessor returned without raising; a raised exception
aborts the chain. `oracle` stands for the opaque per-crew analyzer calls
(`crew().kickoff` followed by `_extract_crew_output`). -/
def runFlow (newId : String) (now : Nat) (req : AnalysisRequest)
    (oracle : CrewKind → Except String CrewOutput)
    (st0 : SAPAnalysisState) : RunOutcome :=
  let (st1, r1) := init_analysis newId req st0
  match r1 with
  | .error e => ⟨st1, .error e, methodsThrough .initStep, some .initStep⟩
  | .ok _ =>
  let (st2, r2) := analyze_business_processes (oracle .process) st1
  match r2 with
  | .error e => ⟨st2, .error e, methodsThrough .processStep, some .processStep⟩
  | .ok _ =>
  let (st3, r3) := analyze_requirements (oracle .requirements) st2
  match r3 with
  | .error e =>
      ⟨st3, .error e, methodsThrough .requirementsStep, some .requirementsStep⟩
  | .ok _ =>
  let (st4, r4) := perform_gap_analysis (oracle .gap) st3
  match r4 with
  | .error e => ⟨st4, .error e, methodsThrough .gapStep, some .gapStep⟩
  | .ok _ =>
  let (st5, r5) := analyze_meeting_transcript (oracle .meeting) st4
  match r5 with
  | .error e => ⟨st5, .error e, methodsThrough .meetingStep, some .meetingStep⟩
  | .ok _ =>
  let (st6, r6) := generate_final_report (oracle .report) now st5
  match r6 with
  | .error e => ⟨st6, .error e, methodsThrough .reportStep, some .reportStep⟩
  | .ok m => ⟨st6, .ok m, methodOrder, none⟩

/-- One entry of the module-level dictionary `analysis_status_store`
(analysis_service.py line 22). Entries are plain Python dicts whose key set
varies by writer, so every field is an `Option`: `none` models an absent
key. -/
structure StatusEntry where
  status : Option String := none
  progress_percentage : Option Nat := none
  current_stage : Option String := none
  created_at : Option Nat := none
  error_message : Option String := none
  has_result : Option Bool := none
  result : Option AnalysisResult := none
  request : Option AnalysisRequest := none
  completed_at : Option Nat := none
  failed_at : Option Nat := none
deriving DecidableEq, Repr

/-- A status entry with no keys at all (the `{}` default of
`analysis_status_store.get(analysis_id, {})`). -/
def emptyEntry : StatusEntry :=
  {}

/-- The in-memory status table: analysis id to its entry. -/
def StatusStore : Type :=
  String → Option StatusEntry

/-- The empty status table. -/
def emptyStore : StatusStore :=
  fun _ => none

/-- Model of `analysis_status_store[analysis_id] = entry`. -/
def storeSet (store : StatusStore) (id : String) (e : StatusEntry) :
    StatusStore :=
  fun k => if k = id then some e else store k

/-- Removal of an id from the table (e.g. the table being cleared by a
process restart, for the id in question). -/
def storeRemove (store : StatusStore) (id : String) : StatusStore :=
  fun k => if k = id then none else store k

/-- The `analysis_results` collection of the document store
(firestore_service.py lines 155–202): persisted results by analysis id;
`get_analysis_result` returns the document or `None`. -/
def FirestoreDB : Type :=
  String → Option AnalysisResult

/-- A document store with no persisted results. -/
def emptyDB : FirestoreDB :=
  fun _ => none

/-- Python `d[key]` on an optional dict slot: the value, or `KeyError`. -/
def dictIndex {α : Type} (slot : Option α) (key : String) : Except String α :=
  match slot with
  | some v => .ok v
  | none => .error ("KeyError: " ++ key)

/-- Model of `AnalysisResponse` (api_models.py lines 69–78). -/
structure AnalysisResponse where
  analysis_id : String
  status : AnalysisStatus
  progress_percentage : Nat := 0
  current_stage : Option String := none
  result : Option AnalysisResult := none
  error_message : Option String := none
  created_at : Nat
  estimated_completion_time : Option Nat := none
deriving DecidableEq, Repr

/-- Model of `AnalysisStatusResponse` (api_models.py lines 81–89). -/
structure AnalysisStatusResponse where
  analysis_id : String
  status : AnalysisStatus
  progress_percentage : Nat
  current_stage : Option String := none
  estimated_completion_time : Option Nat := none
  created_at : Nat
  error_message : Option String := none
deriving DecidableEq, Repr

/-- Model of `AnalysisStatus(s)`: enum construction from a `.value` string,
raising `ValueError` on any other string (routes.py line 94). -/
def parseAnalysisStatus (s : String) : Except String AnalysisStatus :=
  if s = "pending" then .ok .pending
  else if s = "processing" then .ok .processing
  else if s = "completed" then .ok .completed
  else if s = "error" then .ok .error
  else .error ("ValueError: " ++ s ++ " is not a valid AnalysisStatus")

/-- Model of `AnalysisService.start_analysis` (analysis_service.py lines 32–79):
records the initial `pending` entry in the status table, schedules
`process_analysis_task`, and returns the initial response. -/
def startAnalysis (analysis_id : String) (req : AnalysisRequest) (now : Nat)
    (store : StatusStore) : AnalysisResponse × StatusStore :=
  let response : AnalysisResponse :=
    { analysis_id := analysis_id,
      status := .pending,
      progress_percentage := 0,
      current_stage := some "Aguardando início do processamento",
      created_at := now,
      estimated_completion_time := none }
  let entry : StatusEntry :=
    { status := some "pending",
      progress_percentage := some 0,
      current_stage := some "Aguardando início do processamento",
      created_at := some now,
      request := some req }
  (response, storeSet store analysis_id entry)

/-- The snapshot `AnalysisService.get_analysis_status` synthesizes from a
persisted document when the in-memory table has no entry
(analysis_service.py lines 98–105). Note its key set: `status`,
`progress_percentage`, `current_stage`, `has_result`, `result` — and
nothing else; in particular no `created_at` key. -/
def synthCompletedEntry (result : AnalysisResult) : StatusEntry :=
  { status := some "completed",
    progress_percentage := some 100,
    current_stage := some "Análise concluída",
    has_result := some true,
    result := some result }

/-- Model of `AnalysisService.get_analysis_status` (analysis_service.py lines
81–115): the in-memory table first; on a miss, fall back to the document
store and synthesize a completed snapshot; `None` when both miss. -/
def serviceGetAnalysisStatus (store : StatusStore) (db : FirestoreDB)
    (id : String) : Option StatusEntry :=
  match store id with
  | some e => some e
  | none =>
      match db id with
      | some result => some (synthCompletedEntry result)
      | none => none

/-- Outcome of a transport-level endpoint: the handler's value, or an
`HTTPException` with status code and detail. -/
inductive ApiResult (α : Type) where
  | ok (val : α)
  | httpError (code : Nat) (detail : String)
deriving DecidableEq, Repr

/-- Whether an endpoint outcome is a success value. -/
def ApiResult.isOkB {α : Type} : ApiResult α → Bool
  | .ok _ => true
  | .httpError _ _ => false

/-- Whether an endpoint outcome is the 404 not-found signal. -/
def ApiResult.isNotFound {α : Type} : ApiResult α → Bool
  | .ok _ => false
  | .httpError code _ => code = 404

/-- Construction of the `AnalysisStatusResponse` at routes.py lines
92–100, with the keyword arguments evaluated in source order:
`status_data["status"]` then `AnalysisStatus(...)`, the `.get` defaults,
then `datetime.fromisoformat(status_data["created_at"])` — a `KeyError`
when the entry lacks the `created_at` key. `fromisoformat` itself succeeds
on every value the code ever stores (they are `isoformat()` outputs). -/
def buildStatusResponse (id : String) (sd : StatusEntry) :
    Except String AnalysisStatusResponse := do
  let statusStr ← dictIndex sd.status "status"
  let status ← parseAnalysisStatus statusStr
  let progress := sd.progress_percentage.getD 0
  let stage := sd.current_stage
  let createdRaw ← dictIndex sd.created_at "created_at"
  pure
    { analysis_id := id,
      status := status,
      progress_percentage := progress,
      current_stage := stage,
      estimated_completion_time := none,
      created_at := createdRaw,
      error_message := sd.error_message }

/-- The `GET /analysis/(id)/status` handler (routes.py lines 69–113):
404 when neither source knows the id; otherwise build the response,
turning any non-HTTP exception into a 500 "Erro interno". -/
def routeGetStatus (store : StatusStore) (db : FirestoreDB) (id : String) :
    ApiResult AnalysisStatusResponse :=
  match serviceGetAnalysisStatus store db id with
  | none => .httpError 404 ("Análise " ++ id ++ " não encontrada")
  | some sd =>
      match buildStatusResponse id sd with
      | .ok resp => .ok resp
      | .error e => .httpError 500 ("Erro interno: " ++ e)

/-- The `DELETE /analysis/(id)` cancel handler (routes.py lines 206–259):
404 when the id is unknown to both sources; 400 when the status is
`completed` or `error`; otherwise — including a `processing` or `pending`
run — it performs no cancellation (the Celery revoke is a TODO, lines
238–239) and returns the success message. -/
def routeCancelAnalysis (store : StatusStore) (db : FirestoreDB)
    (id : String) : ApiResult String :=
  match serviceGetAnalysisStatus store db id with
  | none => .httpError 404 ("Análise " ++ id ++ " não encontrada")
  | some sd =>
      match dictIndex sd.status "status" with
      | .error e => .httpError 500 ("Erro interno: " ++ e)
      | .ok current_status =>
          if current_status = "completed" ∨ current_status = "error" then
            .httpError 400
              ("Não é possível cancelar análise com status: " ++ current_status)
          else
            .ok ("Análise " ++ id ++ " cancelada com sucesso")

/-- The hard-coded mock result `process_analysis_task` fabricates
(analysis_service.py lines 218–236). It is a function of the analysis id,
the requested module (via the summary f-string) and the clock only. -/
def mockResult (analysis_id : String) (m : SAPModule) (now : Nat) :
    AnalysisResult :=
  { analysis_id := analysis_id,
    presentation_analysis := [],
    requirements_analysis := [],
    overall_summary := "Análise concluída para módulo " ++ m.fstr,
    total_requirements := 5,
    gaps_identified := 2,
    high_impact_gaps := 1,
    recommendations :=
      ["Implementar processo de aprovação automática",
       "Configurar validações adicionais"],
    next_steps :=
      ["Revisar gaps de alta prioridade",
       "Planejar implementação das melhorias"],
    created_at := now,
    processing_time_seconds := 7 }

/-- The fields `SAPAnalysisState` declares as required with no default
(sap_analysis_flow.py lines 34, 35, 38, 39): pydantic refuses to
materialize the model without values for them. -/
def sapStateRequiredNoDefaultFields : List String :=
  ["analysis_id", "presentation_id", "sap_module", "analysis_type"]

/-- The `ValidationError` pydantic raises when `SAPAnalysisState()` is
materialized with no arguments (message paraphrased; one missing-field
error per entry of `sapStateRequiredNoDefaultFields`). -/
def validationErrSAPState : String :=
  "ValidationError: 4 validation errors for SAPAnalysisState"

/-- Models the constructor call `SAPAnalysisFlow()` (sap_analysis_flow.py
lines 65–75; invoked at analysis_service.py line 188 and
upload_routes.py). Its `super().__init__()` into the crewai `Flow` base
class materializes the state model with no arguments, and
`SAPAnalysisState` declares four required fields without defaults (see
`sapStateRequiredNoDefaultFields`), so construction raises
`ValidationError` on every call. -/
def sapAnalysisFlowCtor : Except String Unit :=
  .error validationErrSAPState

/-- Outcome of a `process_analysis_task` execution: the final status
table, the (unchanged) document store, the successive values of the run's
status entry after each of the task's writes, in order, and the task's
own termination (`.error` when it re-raised for Celery). -/
structure TaskOutcome where
  store : StatusStore
  db : FirestoreDB
  writes : List StatusEntry
  exc : Except String Unit

/-- The Celery task `process_analysis_task` (analysis_service.py lines
162–275), transcribed write by write. It marks the entry processing at 5%
(line 177) and reconstructs the request (line 185, a round-trip of a valid
dump, which succeeds); then `flow = SAPAnalysisFlow()` (line 188) raises
`ValidationError` (see `sapAnalysisFlowCtor`). That raise happens before
the inner `try` (line 199), so the OUTER handler (lines 263–275) merges
the error fields into the 5% entry and re-raises so Celery marks the task
failed. The simulated run — four progress updates 25/50/75/95, the
`mockResult`, completion at 100% — (lines 199–251) is transcribed on the
constructor's success branch, which is unreachable; the kickoff itself is
commented out even there (lines 200–201), and the firestore save is
commented out (lines 238–239), so the document store is returned unchanged
on every path. -/
def processAnalysisTask (analysis_id : String) (req : AnalysisRequest)
    (now : Nat) (store : StatusStore) (db : FirestoreDB) : TaskOutcome :=
  let e0 := (store analysis_id).getD emptyEntry
  let e1 := { e0 with status := some "processing",
                      current_stage := some "Inicializando processamento",
                      progress_percentage := some 5 }
  match sapAnalysisFlowCtor with
  | .ok _ =>
      let e2 := { e1 with current_stage := some "Analisando processos de negócio",
                          progress_percentage := some 25,
                          status := some "processing" }
      let e3 := { e2 with current_stage := some "Analisando requisitos",
                          progress_percentage := some 50,
                          status := some "processing" }
      let e4 := { e3 with current_stage := some "Realizando análise de gaps",
                          progress_percentage := some 75,
                          status := some "processing" }
      let e5 := { e4 with current_stage := some "Gerando relatório final",
                          progress_percentage := some 95,
                          status := some "processing" }
      let mock := mockResult analysis_id req.sap_module now
      let e6 := { e5 with status := some "completed",
                          current_stage := some "Análise concluída",
                          progress_percentage := some 100,
                          completed_at := some now,
                          result := some mock }
      { store := storeSet store analysis_id e6,
        db := db,
        writes := [e1, e2, e3, e4, e5, e6],
        exc := .ok () }
  | .error e =>
      let eErr := { e1 with status := some "error",
                            error_message := some e,
                            failed_at := some now }
      { store := storeSet store analysis_id eErr,
        db := db,
        writes := [e1, eErr],
        exc := .error e }

/-- The sequence of `progress_percentage` values a task run writes into
the status entry, in write order. -/
def progressTrace (t : TaskOutcome) : List Nat :=
  t.writes.filterMap (fun e => e.progress_percentage)

/-- Boolean monotone-non-decreasing test on a value sequence. -/
def nonDecreasing : List Nat → Bool
  | [] => true
  | [_] => true
  | a :: b :: rest => a ≤ b && nonDecreasing (b :: rest)

/-- A concrete uploaded-requirements file reference. -/
def fileInfo1 : FileUploadInfo :=
  { filename := "requirements.csv", file_size := 10,
    content_type := "text/csv", file_path := "/tmp/requirements.csv",
    uploaded_at := 0 }

/-- The example request of spec §8: presentation only, module FI, full
analysis, neither optional reference supplied. -/
def reqPlain : AnalysisRequest :=
  { presentation_id := "P1", sap_module := .FI,
    analysis_type := .full_analysis }

/-- A request carrying both optional references. -/
def reqBoth : AnalysisRequest :=
  { presentation_id := "P1",
    requirements_file_info := some fileInfo1,
    meeting_transcript_id := some "M1",
    sap_module := .FI,
    analysis_type := .full_analysis }

/-- An analyzer oracle on which every crew kickoff succeeds. -/
def okOracle : CrewKind → Except String CrewOutput :=
  fun _ => .ok { raw_output := "ok" }

/-- A mid-run state as `analyze_business_processes` would leave it on a run
of `reqPlain` (neither optional reference present), used to exercise the
optional-stage methods directly. -/
def stMid : SAPAnalysisState :=
  { analysis_id := "a1", presentation_id := "P1", sap_module := "FI",
    analysis_type := "full_analysis", created_at := 0,
    process_analysis_result := some { raw_output := "ok" },
    status := .processing, progress_percentage := 35,
    current_stage := some "Analisando processos de negócio" }

/-- A state whose gap-analysis output contains two high-impact keywords
but only one countable gap keyword occurrence, exercising the shadowed
counting heuristics. -/
def stGapDemo : SAPAnalysisState :=
  { stMid with gap_analysis_result := some { raw_output := "crítico urgente" } }

/-- A status-table entry for a run mid-processing, as the simulated task
leaves it between writes. -/
def entryProcessing : StatusEntry :=
  { status := some "processing", progress_percentage := some 50,
    current_stage := some "Analisando requisitos", created_at := some 0 }

/-- A status-table entry for a completed run. -/
def entryCompleted : StatusEntry :=
  { status := some "completed", progress_percentage := some 100,
    current_stage := some "Análise concluída", created_at := some 0 }

/-- A document store holding one persisted result under id `x`. -/
def dbWithX : FirestoreDB :=
  fun k => if k = "x" then some (mockResult "x" SAPModule.FI 3) else none

/-- The status table right after `start_analysis` has registered run `a`
for `reqBoth`. -/
def runBothStore : StatusStore :=
  (startAnalysis "a" reqBoth 0 emptyStore).2

/-- One background-task execution of run `a` for `reqBoth`. -/
def runBothTask : TaskOutcome :=
  processAnalysisTask "a" reqBoth 1 runBothStore emptyDB

/-- The independently computed shadowed counting heuristics carry no cap:
on `stGapDemo` the high-impact count (2) exceeds the gap count (1). These
code paths are unreachable (shadowed), which is why the cap nevertheless
holds for every result the pipeline actually produces. -/
theorem shadowed_counts_can_violate_cap :
    count_high_impact_gaps_shadowed stGapDemo = 2 ∧
    count_gaps_shadowed stGapDemo = 1 := by
  constructor
  · decide
  · decide

/-- Shared reduction fact: the aggregator's primary path always fails, so
`_create_structured_result` returns the fallback result on every input. -/
theorem createStructuredResult_eq_fallback (st : SAPAnalysisState) (now : Nat)
    (rep : CrewOutput) :
    createStructuredResult st now rep = fallbackResult st now rep :=
  rfl

/-- Claim C1 (code fault witness): at the spec §8 example input — no
optional references — the run does not skip the optional stages and
complete; it errors during initialization on the undeclared
`requirements_file_id` attribute, before any stage output exists. The
requirements-stage method itself also raises on its skip test instead of
no-opping, while the meeting-stage skip is a genuine no-op. -/
theorem optional_stage_skip_broken_at_example_input :
    reqPlain.requirements_file_info = none ∧
    reqPlain.meeting_transcript_id = none ∧
    (runFlow "a1" 0 reqPlain okOracle (initState 0)).state.status = .error ∧
    (runFlow "a1" 0 reqPlain okOracle (initState 0)).state.final_result = none ∧
    (runFlow "a1" 0 reqPlain okOracle (initState 0)).state.process_analysis_result = none ∧
    (runFlow "a1" 0 reqPlain okOracle (initState 0)).state.gap_analysis_result = none ∧
    (runFlow "a1" 0 reqPlain okOracle (initState 0)).state.progress_percentage = 0 ∧
    (runFlow "a1" 0 reqPlain okOracle (initState 0)).exc = .error attrErrAnalysisRequest ∧
    (analyze_requirements (okOracle .requirements) stMid).2 = .error attrErrSAPState ∧
    (analyze_requirements (okOracle .requirements) stMid).1.status = .error ∧
    (analyze_requirements (okOracle .requirements) stMid).1.error_message =
      some ("Erro na análise de requisitos: " ++ attrErrSAPState) ∧
    (analyze_meeting_transcript (okOracle .meeting) stMid).2 =
      .ok "No meeting transcript to analyze" ∧
    (analyze_meeting_transcript (okOracle .meeting) stMid).1 = stMid :=
  ⟨rfl, rfl, rfl, rfl, rfl, rfl, rfl, rfl, rfl, rfl, rfl, rfl, rfl⟩

/-- Claim C2 counterexample: a cancel request against a `processing` run is
NOT rejected — the endpoint returns the success message (the Celery revoke
is an unimplemented TODO), contradicting the claimed not-supported error. -/
theorem cancel_processing_returns_success :
    routeCancelAnalysis (storeSet emptyStore "a" entryProcessing) emptyDB "a" =
      .ok "Análise a cancelada com sucesso" ∧
    (routeCancelAnalysis (storeSet emptyStore "a" entryProcessing) emptyDB "a").isOkB
      = true :=
  ⟨rfl, rfl⟩

/-- Claim C2 (amended): a cancel request against a `completed` or `error`
run fails with the already-finished 400 error; an unknown run is reported
not-found; a `processing` run is NOT rejected — the call returns a success
message without performing any cancellation. -/
theorem cancel_request_semantics (store : StatusStore) (db : FirestoreDB)
    (id : String) :
    (store id = none → db id = none →
      routeCancelAnalysis store db id =
        .httpError 404 ("Análise " ++ id ++ " não encontrada")) ∧
    (∀ e s, store id = some e → e.status = some s →
      s = "completed" ∨ s = "error" →
      routeCancelAnalysis store db id =
        .httpError 400 ("Não é possível cancelar análise com status: " ++ s)) ∧
    (∀ e, store id = some e → e.status = some "processing" →
      routeCancelAnalysis store db id =
        .ok ("Análise " ++ id ++ " cancelada com sucesso")) := by
  refine ⟨fun h1 h2 => ?_, fun e s he hs hor => ?_, fun e he hs => ?_⟩
  · simp [routeCancelAnalysis, serviceGetAnalysisStatus, h1, h2]
  · have hne : ¬("completed" = "completed" ∨ "completed" = "error") → False := by
      intro h; exact h (Or.inl rfl)
    rcases hor with h | h <;> subst h <;>
      simp [routeCancelAnalysis, serviceGetAnalysisStatus, he, dictIndex, hs]
  · simp [routeCancelAnalysis, serviceGetAnalysisStatus, he, dictIndex, hs]

/-- Witness for the amended cancel semantics at concrete stores: an unknown
id yields 404, a completed run yields the 400 already-finished error, a
processing run yields the success message. -/
theorem cancel_request_semantics_witness :
    routeCancelAnalysis emptyStore emptyDB "w" =
      .httpError 404 "Análise w não encontrada" ∧
    routeCancelAnalysis (storeSet emptyStore "w" entryCompleted) emptyDB "w" =
      .httpError 400 "Não é possível cancelar análise com status: completed" ∧
    routeCancelAnalysis (storeSet emptyStore "w" entryProcessing) emptyDB "w" =
      .ok "Análise w cancelada com sucesso" :=
  ⟨(cancel_request_semantics emptyStore emptyDB "w").1 rfl rfl,
   (cancel_request_semantics (storeSet emptyStore "w" entryCompleted) emptyDB "w").2.1
     entryCompleted "completed" rfl rfl (Or.inl rfl),
   (cancel_request_semantics (storeSet emptyStore "w" entryProcessing) emptyDB "w").2.2
     entryProcessing rfl rfl⟩

/-- Claim C3 counterexample: with the in-memory table empty and a persisted
result present, the status endpoint returns neither a snapshot nor a 404 —
the synthesized fallback entry lacks the `created_at` key, so response
construction raises `KeyError` and the endpoint answers 500. -/
theorem firestore_fallback_snapshot_unusable :
    serviceGetAnalysisStatus emptyStore dbWithX "x" =
      some (synthCompletedEntry (mockResult "x" SAPModule.FI 3)) ∧
    (synthCompletedEntry (mockResult "x" SAPModule.FI 3)).created_at = none ∧
    routeGetStatus emptyStore dbWithX "x" =
      .httpError 500 "Erro interno: KeyError: created_at" ∧
    (routeGetStatus emptyStore dbWithX "x").isOkB = false ∧
    (routeGetStatus emptyStore dbWithX "x").isNotFound = false :=
  ⟨rfl, rfl, rfl, rfl, rfl⟩

/-- Claim C3 (amended): a status query answers not-found exactly when
neither source has an entry; an in-memory entry with a parseable status and
a `created_at` key yields a well-formed snapshot; on an in-memory miss with
a persisted result, the service synthesizes a completed snapshot — but that
snapshot lacks `created_at` (and `analysis_id`), so the status endpoint
fails with a 500 internal error instead of returning it. -/
theorem status_query_semantics (store : StatusStore) (db : FirestoreDB)
    (id : String) :
    (store id = none → db id = none →
      routeGetStatus store db id =
        .httpError 404 ("Análise " ++ id ++ " não encontrada")) ∧
    (∀ r, store id = none → db id = some r →
      serviceGetAnalysisStatus store db id = some (synthCompletedEntry r) ∧
      (synthCompletedEntry r).status = some "completed" ∧
      (synthCompletedEntry r).progress_percentage = some 100 ∧
      (synthCompletedEntry r).result = some r ∧
      (synthCompletedEntry r).created_at = none ∧
      routeGetStatus store db id =
        .httpError 500 "Erro interno: KeyError: created_at") ∧
    (∀ e s stat t, store id = some e → e.status = some s →
      parseAnalysisStatus s = .ok stat → e.created_at = some t →
      routeGetStatus store db id = .ok
        { analysis_id := id,
          status := stat,
          progress_percentage := e.progress_percentage.getD 0,
          current_stage := e.current_stage,
          estimated_completion_time := none,
          created_at := t,
          error_message := e.error_message }) := by
  refine ⟨fun h1 h2 => ?_, fun r h1 h2 => ?_, fun e s stat t he hs hp ht => ?_⟩
  · simp [routeGetStatus, serviceGetAnalysisStatus, h1, h2]
  · refine ⟨by simp [serviceGetAnalysisStatus, h1, h2], rfl, rfl, rfl, rfl, ?_⟩
    simp [routeGetStatus, serviceGetAnalysisStatus, h1, h2,
      buildStatusResponse, dictIndex, synthCompletedEntry, parseAnalysisStatus,
      Bind.bind, Except.bind]
  · simp [routeGetStatus, serviceGetAnalysisStatus, he,
      buildStatusResponse, dictIndex, hs, hp, ht, Bind.bind, Except.bind,
      pure, Except.pure]

/-- Witness for the amended status-query semantics: 404 for an unknown id,
the 500 fallback behaviour over a persisted result, and a well-formed
snapshot for an in-memory processing entry. -/
theorem status_query_semantics_witness :
    routeGetStatus emptyStore emptyDB "w" =
      .httpError 404 "Análise w não encontrada" ∧
    (serviceGetAnalysisStatus emptyStore dbWithX "x" =
       some (synthCompletedEntry (mockResult "x" SAPModule.FI 3)) ∧
     routeGetStatus emptyStore dbWithX "x" =
       .httpError 500 "Erro interno: KeyError: created_at") ∧
    routeGetStatus (storeSet emptyStore "w" entryProcessing) emptyDB "w" = .ok
      { analysis_id := "w", status := .processing, progress_percentage := 50,
        current_stage := some "Analisando requisitos",
        estimated_completion_time := none, created_at := 0,
        error_message := none } :=
  ⟨(status_query_semantics emptyStore emptyDB "w").1 rfl rfl,
   (let h := (status_query_semantics emptyStore dbWithX "x").2.1
      (mockResult "x" SAPModule.FI 3) rfl rfl
    ⟨h.1, h.2.2.2.2.2⟩),
   (status_query_semantics (storeSet emptyStore "w" entryProcessing) emptyDB "w").2.2
     entryProcessing "processing" .processing 0 rfl rfl rfl rfl⟩

/-- Claim C4 (code fault): no run can pass through the claimed checkpoint
sequence, because no run ever has a successful stage at all:
`SAPAnalysisFlow()` raises `ValidationError` at construction (the state
model has four required no-default fields), so at the example
both-references input the background task ends in status `error` at
progress 5 with the validation message recorded, never reaches 100, and
the flow's chain would likewise abort at initialization before its first
checkpoint. Progress over the run is nevertheless non-decreasing. -/
theorem no_run_traverses_claimed_checkpoints :
    reqBoth.requirements_file_info.isSome = true ∧
    reqBoth.meeting_transcript_id.isSome = true ∧
    progressTrace runBothTask = [5, 5] ∧
    nonDecreasing (0 :: progressTrace runBothTask) = true ∧
    (runBothTask.store "a").bind (fun e => e.status) = some "error" ∧
    (runBothTask.store "a").bind (fun e => e.error_message) =
      some validationErrSAPState ∧
    runBothTask.exc = .error validationErrSAPState ∧
    100 ∉ progressTrace runBothTask ∧
    progressTrace runBothTask ≠ [5, 35, 60, 80, 90, 95, 100] ∧
    (runFlow "a1" 0 reqBoth okOracle (initState 0)).state.status = .error ∧
    (runFlow "a1" 0 reqBoth okOracle (initState 0)).state.progress_percentage
      = 0 :=
  ⟨rfl, rfl, rfl, rfl, rfl, rfl, rfl, by decide, by decide, rfl, rfl⟩

/-- Claim C5: whenever a flow run propagates a stage fault, the state is in
status `error` with a non-empty error message formed from the failing
stage's fixed header and the underlying cause, no method after the failing
one executed, and `final_result` is absent. -/
theorem stage_fault_aborts_run (newId : String) (now created : Nat)
    (req : AnalysisRequest) (oracle : CrewKind → Except String CrewOutput)
    (e : String)
    (_h : (runFlow newId now req oracle (initState created)).exc = .error e) :
    ∃ stage cause,
      (runFlow newId now req oracle (initState created)).failedAt = some stage ∧
      (runFlow newId now req oracle (initState created)).state.status = .error ∧
      (runFlow newId now req oracle (initState created)).state.error_message =
        some (errHeader stage ++ cause) ∧
      errHeader stage ++ cause ≠ "" ∧
      (runFlow newId now req oracle (initState created)).state.final_result
        = none ∧
      (runFlow newId now req oracle (initState created)).executed =
        methodsThrough stage :=
  ⟨.initStep, attrErrAnalysisRequest, rfl, rfl, rfl,
   by simp [errHeader, attrErrAnalysisRequest], rfl, rfl⟩

/-- Witness for the stage-fault semantics: the concrete example run
propagates a fault, and the guaranteed error shape holds there. -/
theorem stage_fault_aborts_run_witness :
    (runFlow "a1" 0 reqPlain okOracle (initState 0)).exc =
      .error attrErrAnalysisRequest ∧
    ∃ stage cause,
      (runFlow "a1" 0 reqPlain okOracle (initState 0)).failedAt = some stage ∧
      (runFlow "a1" 0 reqPlain okOracle (initState 0)).state.status = .error ∧
      (runFlow "a1" 0 reqPlain okOracle (initState 0)).state.error_message =
        some (errHeader stage ++ cause) ∧
      errHeader stage ++ cause ≠ "" ∧
      (runFlow "a1" 0 reqPlain okOracle (initState 0)).state.final_result
        = none ∧
      (runFlow "a1" 0 reqPlain okOracle (initState 0)).executed =
        methodsThrough stage :=
  ⟨rfl, stage_fault_aborts_run "a1" 0 0 reqPlain okOracle
    attrErrAnalysisRequest rfl⟩

/-- Claim C6: building the structured result never raises — the primary
shaping path fails internally, and the method returns the minimal fallback
`AnalysisResult` whose summary is the report's raw text truncated to 1000
characters and whose recommendation and next-step lists are fixed and
non-empty — so a run that reached the report stage still completes. -/
theorem result_aggregation_never_raises (st : SAPAnalysisState) (now : Nat)
    (rep : CrewOutput) :
    (∃ e, createStructuredResultPrimary st now rep = .error e) ∧
    createStructuredResult st now rep = fallbackResult st now rep ∧
    (createStructuredResult st now rep).overall_summary =
      rep.raw_output.take 1000 ∧
    (createStructuredResult st now rep).recommendations ≠ [] ∧
    (createStructuredResult st now rep).next_steps ≠ [] ∧
    (generate_final_report (.ok rep) now st).1.status = .completed ∧
    (generate_final_report (.ok rep) now st).1.progress_percentage = 100 ∧
    (generate_final_report (.ok rep) now st).1.final_result =
      some (createStructuredResult
        { st with current_stage := some "Gerando relatório final",
                  progress_percentage := 95 } now rep) ∧
    (generate_final_report (.ok rep) now st).2 =
      .ok "Final report generated successfully" :=
  by
  refine ⟨⟨_, rfl⟩, rfl, ?_, List.cons_ne_nil _ _, List.cons_ne_nil _ _,
    rfl, rfl, rfl, rfl⟩
  simp only [createStructuredResult_eq_fallback, fallbackResult]

/-- Claim C7: every `AnalysisResult` the pipeline produces — whether from
the flow's aggregator (always the fallback, counters 0/0) or from the
simulated background task (counters 2/1) — satisfies
`high_impact_gaps ≤ gaps_identified`, even though the (shadowed,
unreachable) keyword heuristics enforce no such cap. -/
theorem high_impact_gaps_le_gaps_identified :
    (∀ (st : SAPAnalysisState) (now : Nat) (rep : CrewOutput),
      (createStructuredResult st now rep).high_impact_gaps ≤
        (createStructuredResult st now rep).gaps_identified) ∧
    (∀ (id : String) (m : SAPModule) (now : Nat),
      (mockResult id m now).high_impact_gaps ≤
        (mockResult id m now).gaps_identified) :=
  ⟨fun _ _ _ => Nat.le_refl 0, fun _ _ _ => Nat.le_succ 1⟩

/-- Claim C8: the later duplicate helper definitions shadow the earlier
ones and require a `tasks_outputs` argument the aggregator does not pass,
so the primary construction path raises `TypeError` at its first helper
call and `_create_structured_result` always returns the fallback: empty
analysis lists, all three counters 0, the fixed singleton recommendation
and next-step lists, and the report's raw output truncated to 1000
characters as summary. -/
theorem shadowed_helpers_force_fallback (st : SAPAnalysisState) (now : Nat)
    (rep : CrewOutput) :
    createStructuredResultPrimary st now rep = .error
      ("TypeError: " ++ "_extract_presentation_analysis" ++
       " missing 1 required positional argument: tasks_outputs") ∧
    createStructuredResult st now rep = fallbackResult st now rep ∧
    (createStructuredResult st now rep).presentation_analysis = [] ∧
    (createStructuredResult st now rep).requirements_analysis = [] ∧
    (createStructuredResult st now rep).total_requirements = 0 ∧
    (createStructuredResult st now rep).gaps_identified = 0 ∧
    (createStructuredResult st now rep).high_impact_gaps = 0 ∧
    (createStructuredResult st now rep).recommendations =
      ["Revisar resultado da análise"] ∧
    (createStructuredResult st now rep).next_steps =
      ["Implementar melhorias identificadas"] ∧
    (createStructuredResult st now rep).overall_summary =
      rep.raw_output.take 1000 :=
  by
  refine ⟨rfl, rfl, rfl, rfl, rfl, rfl, rfl, rfl, rfl, ?_⟩
  simp only [createStructuredResult_eq_fallback, fallbackResult]

/-- Claim C9: neither `AnalysisRequest` nor `SAPAnalysisState` declares a
`requirements_file_id` field (both declare `requirements_file_info`), so
the initialization method's read of `request.requirements_file_id` raises
on every input: every run errors during initialization, before any
analysis stage executes. -/
theorem undeclared_field_breaks_every_initialization :
    ("requirements_file_id" ∉ analysisRequestFields ∧
     "requirements_file_id" ∉ sapAnalysisStateFields ∧
     "requirements_file_info" ∈ analysisRequestFields ∧
     "requirements_file_info" ∈ sapAnalysisStateFields) ∧
    ∀ (newId : String) (now : Nat) (req : AnalysisRequest)
      (oracle : CrewKind → Except String CrewOutput)
      (st0 : SAPAnalysisState),
      (init_analysis newId req st0).2 = .error attrErrAnalysisRequest ∧
      (init_analysis newId req st0).1.status = .error ∧
      (init_analysis newId req st0).1.error_message =
        some ("Erro na inicialização: " ++ attrErrAnalysisRequest) ∧
      (runFlow newId now req oracle st0).failedAt = some .initStep ∧
      (runFlow newId now req oracle st0).executed = [.initStep] ∧
      (runFlow newId now req oracle st0).state.status = .error :=
  ⟨by decide, fun _ _ _ _ _ => ⟨rfl, rfl, rfl, rfl, rfl, rfl⟩⟩

/-- Claim C10 counterexample: the background task does NOT write the
simulated progress sequence or the hard-coded mock result — at a concrete
submitted request the status entry ends in `error` at progress 5 with no
result attached, because `SAPAnalysisFlow()` raises at construction. -/
theorem task_never_writes_mock_result :
    ((processAnalysisTask "a" reqPlain 1 emptyStore emptyDB).store "a").bind
      (fun e => e.result) = none ∧
    ((processAnalysisTask "a" reqPlain 1 emptyStore emptyDB).store "a").bind
      (fun e => e.status) = some "error" ∧
    progressTrace (processAnalysisTask "a" reqPlain 1 emptyStore emptyDB) =
      [5, 5] ∧
    progressTrace (processAnalysisTask "a" reqPlain 1 emptyStore emptyDB) ≠
      [5, 25, 50, 75, 95, 100] :=
  ⟨rfl, rfl, rfl, by decide⟩

/-- Claim C10 (amended): the background task never invokes the flow's
stages and never persists to the document store, and once the in-memory
entry is gone the run is reported not-found — but it also never writes the
simulated sequence or the mock result: `SAPAnalysisFlow()` raises
`ValidationError` at construction, so the task records the error into the
5% entry and re-raises, and its outcome is identical across inputs
(independent even of the request). -/
theorem background_task_fails_at_flow_construction (id : String)
    (req : AnalysisRequest) (now : Nat) (store : StatusStore)
    (db : FirestoreDB) (hdb : db id = none) :
    (processAnalysisTask id req now store db).db = db ∧
    (processAnalysisTask id req now store db).exc =
      .error validationErrSAPState ∧
    ((processAnalysisTask id req now store db).store id).bind
      (fun e => e.status) = some "error" ∧
    ((processAnalysisTask id req now store db).store id).bind
      (fun e => e.error_message) = some validationErrSAPState ∧
    ((processAnalysisTask id req now store db).store id).bind
      (fun e => e.result) = ((store id).getD emptyEntry).result ∧
    progressTrace (processAnalysisTask id req now store db) = [5, 5] ∧
    (∀ req2 : AnalysisRequest,
      processAnalysisTask id req2 now store db =
        processAnalysisTask id req now store db) ∧
    serviceGetAnalysisStatus
      (storeRemove (processAnalysisTask id req now store db).store id) db id
      = none ∧
    routeGetStatus
      (storeRemove (processAnalysisTask id req now store db).store id) db id
      = .httpError 404 ("Análise " ++ id ++ " não encontrada") := by
  refine ⟨rfl, rfl, ?_, ?_, ?_, rfl, fun req2 => rfl, ?_, ?_⟩
  · simp [processAnalysisTask, sapAnalysisFlowCtor, storeSet]
  · simp [processAnalysisTask, sapAnalysisFlowCtor, storeSet]
  · simp [processAnalysisTask, sapAnalysisFlowCtor, storeSet]
  · simp [serviceGetAnalysisStatus, storeRemove, hdb]
  · simp [routeGetStatus, serviceGetAnalysisStatus, storeRemove, hdb]

/-- Witness for the amended background-task semantics: a concrete run on
the registered both-references request leaves the document store
untouched, terminates with the validation error, and is not found after
its in-memory entry is removed. -/
theorem background_task_fails_at_flow_construction_witness :
    emptyDB "a" = none ∧
    (processAnalysisTask "a" reqBoth 1 runBothStore emptyDB).db = emptyDB ∧
    (processAnalysisTask "a" reqBoth 1 runBothStore emptyDB).exc =
      .error validationErrSAPState ∧
    routeGetStatus
      (storeRemove
        (processAnalysisTask "a" reqBoth 1 runBothStore emptyDB).store "a")
      emptyDB "a" = .httpError 404 "Análise a não encontrada" :=
  ⟨rfl,
   (background_task_fails_at_flow_construction "a" reqBoth 1 runBothStore
     emptyDB rfl).1,
   (background_task_fails_at_flow_construction "a" reqBoth 1 runBothStore
     emptyDB rfl).2.1,
   (background_task_fails_at_flow_construction "a" reqBoth 1 runBothStore
     emptyDB rfl).2.2.2.2.2.2.2.2⟩

end FitGap
